import Mathlib

/-!
Verification of the `resulta` TypeScript library: two tagged-union types
(`Result`, `Option`) and pure combinators over them, embedded shallowly
from `src/unnamed/part_003` (and the historical `match` alias in
`src/src/index.ts`).

Asynchronous values are modelled by their settled outcome: a promise (or a
zero-argument async function's run) either resolves with a value of type `T`
or rejects with a thrown value of type `ε`, which we embed as `Except ε T`.

Claims about invocation counts of caller-supplied functions are settled
against counting variants (`mapCount`, `flatMapCount`, `validateCount`)
that mirror the source branch-for-branch while tallying each syntactic
call site of the supplied function.
-/

namespace Resulta

/-- Type `Result<T, E> = Ok<T> | Err<E>`: discriminated union of
`{ ok: true; value: T }` and `{ ok: false; error: E }`. -/
inductive Result (T E : Type) where
  | Ok (value : T)
  | Err (error : E)
  deriving DecidableEq, Repr

/-- Type `Option<T> = Some<T> | None`: discriminated union of
`{ isSome: true; value: T }` and `{ isSome: false }`. -/
inductive Option (T : Type) where
  | Some (value : T)
  | None
  deriving DecidableEq, Repr

variable {T U E F ε : Type}

/-- Function `ok(value)`: constructs an Ok result. -/
def ok (value : T) : Result T E := Result.Ok value

/-- Function `err(error)`: constructs an Err result. -/
def err (error : E) : Result T E := Result.Err error

/-- Function `some(value)`: constructs a Some option. -/
def some (value : T) : Option T := Option.Some value

/-- Function `none()`: constructs a None option. -/
def none : Option T := Option.None

/-- The discriminant field `result.ok` of the union. -/
def Result.isOk : Result T E → Bool
  | .Ok _ => true
  | .Err _ => false

/-- Function `tryCatchAsync(fn)`: runs the zero-argument async function `fn` and
converts its settled outcome to a Result: normal completion with `v`
gives `ok(v)`; a raise/rejection with `e` gives `err(e)` with the thrown
value passed through verbatim. -/
def tryCatchAsync (fn : Unit → Except ε T) : Result T ε :=
  match fn () with
  | .ok v => ok v
  | .error e => err e

/-- Function `match(fn)` from `src/src/index.ts` (named `matchFn` here because
`match` is a Lean keyword): the historical alias of `tryCatchAsync`,
with an identical body. -/
def matchFn (fn : Unit → Except ε T) : Result T ε :=
  match fn () with
  | .ok v => ok v
  | .error e => err e

/-- Function `map(result, fn)`: `result.ok ? ok(fn(result.value)) : result`. -/
def map (result : Result T E) (fn : T → U) : Result U E :=
  match result with
  | .Ok value => ok (fn value)
  | .Err error => err error

/-- Function `mapErr(result, fn)`: `result.ok ? result : err(fn(result.error))`. -/
def mapErr (result : Result T E) (fn : E → F) : Result T F :=
  match result with
  | .Ok value => ok value
  | .Err error => err (fn error)

/-- The loop of `combine`: walks the list keeping the array `values` of
values pushed so far; `if (!result.ok) return result` else push. -/
def combineGo : List (Result T E) → List T → Result (List T) E
  | [], values => ok values
  | result :: rest, values =>
    match result with
    | .Err error => err error
    | .Ok value => combineGo rest (values ++ [value])

/-- Function `combine(results)`: starts the loop with the empty `values` array. -/
def combine (results : List (Result T E)) : Result (List T) E :=
  combineGo results []

/-- Function `optionToResult(option, error)`:
`option.isSome ? ok(option.value) : err(error)`. -/
def optionToResult (option : Option T) (error : E) : Result T E :=
  match option with
  | .Some value => ok value
  | .None => err error

/-- Function `resultToOption(result)`: `result.ok ? some(result.value) : none()`. -/
def resultToOption (result : Result T E) : Option T :=
  match result with
  | .Ok value => some value
  | .Err _ => none

/-- Function `mapOption(option, fn)`:
`option.isSome ? some(fn(option.value)) : none()`. -/
def mapOption (option : Option T) (fn : T → U) : Option U :=
  match option with
  | .Some value => some (fn value)
  | .None => none

/-- Function `unwrapOption(option, defaultValue)`:
`option.isSome ? option.value : defaultValue`. -/
def unwrapOption (option : Option T) (defaultValue : T) : T :=
  match option with
  | .Some value => value
  | .None => defaultValue

/-- Function `flatMap(result, fn)`: `result.ok ? fn(result.value) : result`. -/
def flatMap (result : Result T E) (fn : T → Result U E) : Result U E :=
  match result with
  | .Ok value => fn value
  | .Err error => err error

/-- Function `validate(value, predicate, error)`:
`predicate(value) ? ok(value) : err(error)`. -/
def validate (value : T) (predicate : T → Bool) (error : E) : Result T E :=
  if predicate value then ok value else err error

/-- Function `fromPromise(promise, errorHandler)`: converts the settled outcome of an
already-started promise to a Result, mapping a rejection through the
caller-supplied `errorHandler`. -/
def fromPromise (promise : Except ε T) (errorHandler : ε → E) : Result T E :=
  match promise with
  | .ok value => ok value
  | .error error => err (errorHandler error)

/-- Variant of `map` instrumented with a tally of how many times `fn` is called: the
source calls `fn` once on the Ok branch and has no call site on the Err
branch. -/
def mapCount (result : Result T E) (fn : T → U) : Result U E × Nat :=
  match result with
  | .Ok value => (ok (fn value), 1)
  | .Err error => (err error, 0)

/-- Variant of `flatMap` instrumented with a tally of calls to `fn`: one call on the
Ok branch, none on the Err branch. -/
def flatMapCount (result : Result T E) (fn : T → Result U E) :
    Result U E × Nat :=
  match result with
  | .Ok value => (fn value, 1)
  | .Err error => (err error, 0)

/-- Variant of `validate` instrumented with a tally of calls to `predicate`: the
condition `predicate(value)` is evaluated exactly once, before either
branch is taken. -/
def validateCount (value : T) (predicate : T → Bool) (error : E) :
    Result T E × Nat :=
  (if predicate value then ok value else err error, 1)

/-- Helper: on a run of Ok elements followed by an Err, the loop returns
that Err regardless of the accumulator and of everything after the Err. -/
theorem combineGo_first_err (pre : List T) (e : E)
    (suf : List (Result T E)) (acc : List T) :
    combineGo (pre.map ok ++ err e :: suf) acc = err e := by
  induction pre generalizing acc with
  | nil => rfl
  | cons v rest ih => simpa [combineGo, ok, err] using ih (acc ++ [v])

/-- Helper: on a list of Ok elements, the loop appends their values, in
order, to the accumulator. -/
theorem combineGo_all_ok (ts : List T) (acc : List T) :
    combineGo (ts.map ok) acc = (ok (acc ++ ts) : Result (List T) E) := by
  induction ts generalizing acc with
  | nil => simp [combineGo, ok]
  | cons v rest ih => simpa [combineGo, ok] using ih (acc ++ [v])

/-- C1: for every list whose elements before some Err are all Ok, `combine`
returns exactly that first Err; the result does not depend on any element
after it (the suffix `suf` is arbitrary and uninspected). -/
theorem combine_first_err_short_circuits (T E : Type)
    (pre : List T) (e : E) (suf : List (Result T E)) :
    combine (pre.map ok ++ err e :: suf) = err e :=
  combineGo_first_err pre e suf []

/-- C2: on a list in which every element is Ok, `combine` returns `ok` of
the array of the contained values, preserving order and length (the list
`ts` itself); in particular `combine [] = ok []`. -/
theorem combine_all_ok (T E : Type) (ts : List T) :
    combine (ts.map ok) = (ok ts : Result (List T) E) ∧
    combine ([] : List (Result T E)) = ok ([] : List T) :=
  ⟨by simpa using combineGo_all_ok (E := E) ts [], rfl⟩

/-- C3: `tryCatchAsync(fn)` returns `ok(v)` when `fn` completes normally
with `v` and `err(e)` when `fn` raises or rejects with `e`, the thrown
value captured verbatim (at whatever type, unwrapped); the historical
alias `match` computes the same function. -/
theorem tryCatchAsync_spec (T ε : Type) :
    (∀ v : T, tryCatchAsync (fun _ => Except.ok v) = (ok v : Result T ε)) ∧
    (∀ e : ε, tryCatchAsync (fun _ => Except.error e) = (err e : Result T ε)) ∧
    (∀ fn : Unit → Except ε T, matchFn fn = tryCatchAsync fn) :=
  ⟨fun _ => rfl, fun _ => rfl, fun _ => rfl⟩

/-- C4: `map(r, fn)` returns `ok(fn(value))` when `r` is Ok and returns the
Err unchanged when `r` is Err (in this embedding the output is the very
Err value passed in, the closest analogue of reference passthrough); `fn`
is called exactly once on the Ok path and never on the Err path, as the
instrumented `mapCount` records. -/
theorem map_spec (T U E : Type) (fn : T → U) :
    (∀ v : T, map (ok v) fn = (ok (fn v) : Result U E)) ∧
    (∀ e : E, map (err e : Result T E) fn = err e) ∧
    (∀ r : Result T E, mapCount r fn = (map r fn, if r.isOk then 1 else 0)) :=
  ⟨fun _ => rfl, fun _ => rfl, fun r => by cases r <;> rfl⟩

/-- C5: `flatMap(r, fn)` returns `fn(value)` itself (no extra wrapping)
when `r` is Ok and passes the Err through unchanged when `r` is Err; `fn`
is called exactly once on the Ok path and never on the Err path, as the
instrumented `flatMapCount` records. -/
theorem flatMap_spec (T U E : Type) (fn : T → Result U E) :
    (∀ v : T, flatMap (ok v) fn = fn v) ∧
    (∀ e : E, flatMap (err e : Result T E) fn = err e) ∧
    (∀ r : Result T E,
      flatMapCount r fn = (flatMap r fn, if r.isOk then 1 else 0)) :=
  ⟨fun _ => rfl, fun _ => rfl, fun r => by cases r <;> rfl⟩

/-- C6: `validate(value, predicate, error)` returns `ok(value)` when the
predicate holds of the value and `err(error)` otherwise, and the predicate
is evaluated exactly once, as the instrumented `validateCount` records. -/
theorem validate_spec (T E : Type)
    (value : T) (predicate : T → Bool) (error : E) :
    (predicate value = true ∧ validate value predicate error = ok value ∨
     predicate value = false ∧ validate value predicate error = err error) ∧
    validateCount value predicate error =
      (validate value predicate error, 1) := by
  refine ⟨?_, rfl⟩
  by_cases h : predicate value = true
  · exact Or.inl ⟨h, by simp [validate, h]⟩
  · exact Or.inr ⟨by simpa using h, by simp [validate, h]⟩

/-- C7: `fromPromise(promise, errorHandler)` returns `ok(v)` when the
promise resolves with `v`, and `err(errorHandler(e))` when it rejects with
`e` — the caught value goes through the caller-supplied handler, i.e. the
whole bridge is `tryCatchAsync` followed by `mapErr` with the handler,
rather than passing the raw thrown value through as `tryCatchAsync` does. -/
theorem fromPromise_spec (T ε E : Type) (errorHandler : ε → E) :
    (∀ v : T, fromPromise (Except.ok v) errorHandler = ok v) ∧
    (∀ e : ε, fromPromise (Except.error e) errorHandler
        = (err (errorHandler e) : Result T E)) ∧
    (∀ promise : Except ε T,
      fromPromise promise errorHandler
        = mapErr (tryCatchAsync (fun _ => promise)) errorHandler) :=
  ⟨fun _ => rfl, fun _ => rfl, fun promise => by cases promise <;> rfl⟩

/-- C8: `resultToOption(r)` returns `some(value)` when `r` is Ok and
`none()` when `r` is Err; the error payload is discarded, so any two Err
inputs, whatever their errors, convert to the same Option. -/
theorem resultToOption_spec (T E : Type) :
    (∀ v : T, resultToOption (ok v : Result T E) = some v) ∧
    (∀ e : E, resultToOption (err e : Result T E) = none) ∧
    (∀ e₁ e₂ : E, resultToOption (err e₁ : Result T E)
        = resultToOption (err e₂ : Result T E)) :=
  ⟨fun _ => rfl, fun _ => rfl, fun _ _ => rfl⟩

/-- C9: converting a success Result to an Option and back with any
synthesized error `e` preserves the success value exactly; the same
round trip starting from an Err yields `err(e)`, the caller-supplied
error, in place of the original error `x`. -/
theorem roundtrip_result_spec (T E : Type) :
    (∀ (v : T) (e : E),
      optionToResult (resultToOption (ok v : Result T E)) e = ok v) ∧
    (∀ (x e : E),
      optionToResult (resultToOption (err x : Result T E)) e = err e) :=
  ⟨fun _ _ => rfl, fun _ _ => rfl⟩

/-- C10: converting any Option to a Result with any synthesized error and
back is the identity on Options: no information is lost in this
direction. -/
theorem roundtrip_option_spec (T E : Type) (o : Option T) (e : E) :
    resultToOption (optionToResult o e) = o := by
  cases o <;> rfl

end Resulta
